import Mathlib

/-!
Shallow embedding of the gmail-mcp-lib repository (TypeScript sources:
`src/tokens.ts`, `src/index.ts`, the MCP server entry point) and proofs
about the embedded definitions.

External library behaviour (JSON.parse, path.resolve, the filesystem, the
Gmail SDK network calls, JSON.stringify) is modelled as explicit function
parameters: the repository code treats them as opaque effects, and every
claim here quantifies over their behaviour or fixes a concrete instance.
JavaScript truthiness of the `||` / `if (x)` idioms is modelled faithfully:
a missing value (undefined) and the empty string (resp. the number 0) are
falsy; everything else is truthy.
-/

namespace Gmail

/-- Modelled from the spec: the `Tokens` type of `src/types.ts` (the file
itself is not among the provided sources). Its shape is reconstructed from
its uses in the `GmailClient` constructor and the token-resolution tests:
each of the four logical fields (access token, refresh token, expiry
timestamp, token type) may be given under the underscore convention, the
camel-case convention, both, or neither. -/
structure Tokens where
  access_token : Option String := none
  refresh_token : Option String := none
  expiry_date : Option Int := none
  token_type : Option String := none
  accessToken : Option String := none
  refreshToken : Option String := none
  expiryDate : Option Int := none
  tokenType : Option String := none
deriving DecidableEq, Repr

/-- The process environment read by `resolveTokens` in `src/tokens.ts`:
`GMAIL_TOKEN` and `GMAIL_TOKEN_FILE`. `none` models an unset variable. -/
structure ResolverEnv where
  gmailToken : Option String := none
  gmailTokenFile : Option String := none

/-- The filesystem as seen by `resolveTokens`: `fs.existsSync` and
`fs.readFileSync` (whose failure — an unreadable file — is `none`). -/
structure ResolverFs where
  fileExists : String → Bool
  readFile : String → Option String

/-- External library functions used by `resolveTokens`: `JSON.parse`
(returning `none` when it throws; a successful parse is cast to `Tokens`
unchecked, exactly as the TypeScript code casts it) and `path.resolve`. -/
structure ResolverExt where
  parseJson : String → Option Tokens
  pathResolve : String → String

/-- Error message thrown for malformed JSON in `GMAIL_TOKEN`
(`src/tokens.ts`, line 17). -/
def envJsonErrMsg : String := "GMAIL_TOKEN environment variable is not valid JSON"

/-- Error message thrown when the token file cannot be read or parsed
(`src/tokens.ts`, line 30); one message for both failure modes. -/
def fileErrMsg (tokenPath : String) : String :=
  "Failed to read or parse token file at " ++ tokenPath

/-- Error message thrown when no credential source yields a value
(`src/tokens.ts`, lines 34-36). -/
def noTokensMsg : String :=
  "No Gmail tokens found. Provide tokens via: 1) GMAIL_TOKEN env var, 2) GMAIL_TOKEN_FILE env var pointing to JSON file, 3) direct function parameter"

/-- `process.env.GMAIL_TOKEN_FILE || './token.json'` (`src/tokens.ts`,
line 22): an unset or empty variable is falsy and yields the default. -/
def tokenFileName (env : ResolverEnv) : String :=
  match env.gmailTokenFile with
  | some s => if s = "" then "./token.json" else s
  | none => "./token.json"

/-- `path.resolve(tokenFile)` (`src/tokens.ts`, line 23). -/
def resolvedTokenPath (ext : ResolverExt) (env : ResolverEnv) : String :=
  ext.pathResolve (tokenFileName env)

/-- Priority 3 of `resolveTokens` (`src/tokens.ts`, lines 21-36): the token
file, then the final no-source error. -/
def resolveFromFile (ext : ResolverExt) (env : ResolverEnv) (fs : ResolverFs) :
    Except String Tokens :=
  let tokenPath := resolvedTokenPath ext env
  if fs.fileExists tokenPath then
    match fs.readFile tokenPath with
    | some content =>
      match ext.parseJson content with
      | some t => Except.ok t
      | none => Except.error (fileErrMsg tokenPath)
    | none => Except.error (fileErrMsg tokenPath)
  else
    Except.error noTokensMsg

/-- `resolveTokens` (`src/tokens.ts`, lines 5-37). A directly provided
bundle is returned as-is; otherwise the `GMAIL_TOKEN` variable is consulted
when truthy (set and non-empty), with a parse failure fatal; otherwise the
token file. `Except.error` carries the thrown `Error`'s message. -/
def resolveTokens (ext : ResolverExt) (env : ResolverEnv) (fs : ResolverFs)
    (provided : Option Tokens) : Except String Tokens :=
  match provided with
  | some t => Except.ok t
  | none =>
    match env.gmailToken with
    | some s =>
      if s = "" then resolveFromFile ext env fs
      else
        match ext.parseJson s with
        | some t => Except.ok t
        | none => Except.error envJsonErrMsg
    | none => resolveFromFile ext env fs

/-- JavaScript `a || b` on optional strings: `a` when present and non-empty
(truthy), else `b`. -/
def jsOrStr (a b : Option String) : Option String :=
  match a with
  | some s => if s = "" then b else some s
  | none => b

/-- JavaScript `a || b` on optional numbers: `a` when present and non-zero
(truthy), else `b`. -/
def jsOrInt (a b : Option Int) : Option Int :=
  match a with
  | some n => if n = 0 then b else some n
  | none => b

/-- JavaScript truthiness of an optional string. -/
def jsTruthyStr (a : Option String) : Bool :=
  match a with
  | some s => decide (s ≠ "")
  | none => false

/-- JavaScript truthiness of an optional number. -/
def jsTruthyInt (a : Option Int) : Bool :=
  match a with
  | some n => decide (n ≠ 0)
  | none => false

/-- The canonical (underscore-convention) credential record handed to
`oauth2Client.setCredentials`. -/
structure NormalizedTokens where
  access_token : Option String
  refresh_token : Option String
  expiry_date : Option Int
  token_type : Option String
deriving DecidableEq, Repr

/-- Token normalization performed by the `GmailClient` constructor
(`src/index.ts`, lines 36-41): each snake_case field falls back to its
camelCase spelling via JavaScript `||`. -/
def normalizeTokens (tokens : Tokens) : NormalizedTokens :=
  { access_token := jsOrStr tokens.access_token tokens.accessToken
    refresh_token := jsOrStr tokens.refresh_token tokens.refreshToken
    expiry_date := jsOrInt tokens.expiry_date tokens.expiryDate
    token_type := jsOrStr tokens.token_type tokens.tokenType }

/-! ### Opaque remote payload records

Modelled from the spec: `src/types.ts` is not among the provided sources;
per spec §3 these are passive data records mirroring the remote mailbox's
identifiers and metadata, relayed unchanged by this system. Only enough
structure is given for the payloads to be concrete, decidable values. -/

/-- Modelled from the spec: a mail message record (id, thread id, label
ids, snippet). -/
structure Message where
  id : Option String := none
  threadId : Option String := none
  labelIds : Option (List String) := none
  snippet : Option String := none
deriving DecidableEq, Repr

/-- Modelled from the spec: a thread record. -/
structure Thread where
  id : Option String := none
  snippet : Option String := none
deriving DecidableEq, Repr

/-- Modelled from the spec: a label record. -/
structure Label where
  id : Option String := none
  name : Option String := none
deriving DecidableEq, Repr

/-- Modelled from the spec: a draft record. -/
structure Draft where
  id : Option String := none
  message : Option Message := none
deriving DecidableEq, Repr

/-- A JavaScript value caught by a `catch` clause: either an `Error`
instance (carrying its message) or any non-error-shaped value (carrying
its string rendering). -/
inductive JsUnknown where
  | errorVal (message : String)
  | nonError (display : String)
deriving DecidableEq, Repr

/-- The message extracted from a caught value by
`error instanceof Error ? error.message : String(error)`. -/
def jsErrMessage : JsUnknown → String
  | .errorVal m => m
  | .nonError s => s

/-- `GmailClient.handleError` (`src/index.ts`, lines 236-243): returns the
line written to `console.error` and the value thrown onward. An `Error` is
logged with its message and rethrown unchanged; anything else is logged
generically and replaced by a fresh `Error('Unknown Gmail API error')`. -/
def handleError : JsUnknown → String × JsUnknown
  | .errorVal m => ("Gmail API error: " ++ m, .errorVal m)
  | .nonError d => ("Unknown Gmail API error: " ++ d, .errorVal "Unknown Gmail API error")

/-- The `catch (error) { this.handleError(error); }` clause shared by every
façade method: the produced log line and the propagated failure. -/
def catchWith {α : Type} (e : JsUnknown) : List String × Except JsUnknown α :=
  ([(handleError e).1], Except.error (handleError e).2)

/-! ### Message envelope construction and base64 wire encoding -/

/-- `options.to` of `SendMessageOptions` / `CreateDraftOptions`
(`string | string[]` in TypeScript). -/
inductive Recipients where
  | one (addr : String)
  | many (addrs : List String)
deriving DecidableEq, Repr

/-- The fields `buildMessage` reads from its
`SendMessageOptions | CreateDraftOptions` argument; `inReplyTo` is `none`
for a draft, whose options type has no such key (`'inReplyTo' in options`
is then false). -/
structure EnvelopeFields where
  to' : Recipients
  subject : Option String := none
  body : Option String := none
  html : Option Bool := none
  inReplyTo : Option String := none
deriving DecidableEq, Repr

/-- The header lines pushed by `GmailClient.buildMessage` (`src/index.ts`,
lines 215-231): To, Subject (placeholder when falsy), Content-Type chosen
by the html flag, MIME-Version, and — when an in-reply-to identifier is
supplied (truthy) — In-Reply-To and References. -/
def messageHeaders (o : EnvelopeFields) : List String :=
  let toStr := match o.to' with
    | .many addrs => String.intercalate "," addrs
    | .one addr => addr
  let subject := match o.subject with
    | some s => if s = "" then "(no subject)" else s
    | none => "(no subject)"
  let contentType := if o.html = some true then "text/html" else "text/plain"
  let base := ["To: " ++ toStr,
    "Subject: " ++ subject,
    "Content-Type: " ++ contentType ++ "; charset=\"UTF-8\"",
    "MIME-Version: 1.0"]
  match o.inReplyTo with
  | some r =>
    if r = "" then base
    else base ++ ["In-Reply-To: " ++ r, "References: " ++ r]
  | none => base

/-- `GmailClient.buildMessage` (`src/index.ts`, lines 215-234): the header
lines joined by CRLF, a blank line, then the body (empty when falsy). -/
def buildMessage (o : EnvelopeFields) : String :=
  String.intercalate "\r\n" (messageHeaders o) ++ "\r\n\r\n" ++
    (match o.body with
     | some b => b
     | none => "")

/-- UTF-8 encoding of one code point, as a list of byte values; models the
encoding `Buffer.from(email)` applies to a JavaScript string. -/
def utf8EncodeCharNat (c : Char) : List Nat :=
  let n := c.toNat
  if n < 128 then [n]
  else if n < 2048 then [192 + n / 64, 128 + n % 64]
  else if n < 65536 then [224 + n / 4096, 128 + n / 64 % 64, 128 + n % 64]
  else [240 + n / 262144, 128 + n / 4096 % 64, 128 + n / 64 % 64, 128 + n % 64]

/-- The standard base64 alphabet. -/
def base64Table : List Char :=
  ("ABCDEFGHIJKLMNOPQRSTUVWXYZabcdefghijklmnopqrstuvwxyz0123456789+/").data

/-- The base64 digit for a 6-bit value. -/
def base64Digit (n : Nat) : Char := base64Table.getD n 'A'

/-- Standard base64 of a byte list, with `=` padding, three bytes at a
time; models Node's `buffer.toString('base64')`. -/
def base64EncodeNat : List Nat → String
  | [] => ""
  | [a] =>
    String.mk [base64Digit (a / 4), base64Digit (a % 4 * 16)] ++ "=="
  | [a, b] =>
    let m := a * 256 + b
    String.mk [base64Digit (m / 1024), base64Digit (m / 16 % 64),
      base64Digit (m % 16 * 4)] ++ "="
  | a :: b :: c :: rest =>
    let n := a * 65536 + b * 256 + c
    String.mk [base64Digit (n / 262144 % 64), base64Digit (n / 4096 % 64),
      base64Digit (n / 64 % 64), base64Digit (n % 64)] ++ base64EncodeNat rest

/-- `Buffer.from(email).toString('base64')` (`src/index.ts`, lines 101 and
120): UTF-8 bytes of the envelope, base64-encoded. -/
def base64Encode (s : String) : String :=
  base64EncodeNat (s.data.flatMap utf8EncodeCharNat)

/-! ### Façade operation options, requests and methods

Each façade method is modelled as a function of the underlying SDK call
(a field of `GmailApi` below), returning the list of `console.error` lines
it produced together with its result (`Except.error` being a thrown
value). -/

/-- `ListMessagesOptions` (used by `listMessages`). -/
structure ListMessagesOptions where
  q : Option String := none
  maxResults : Option Nat := none
  pageToken : Option String := none
  includeSpamTrash : Option Bool := none
  labelIds : Option (List String) := none
deriving DecidableEq, Repr

/-- `Omit<ListMessagesOptions, 'q'>` (used by `searchMessages`). -/
structure SearchMessagesOptions where
  maxResults : Option Nat := none
  pageToken : Option String := none
  includeSpamTrash : Option Bool := none
  labelIds : Option (List String) := none
deriving DecidableEq, Repr

/-- `ListThreadsOptions` (used by `listThreads`). -/
structure ListThreadsOptions where
  q : Option String := none
  maxResults : Option Nat := none
  pageToken : Option String := none
  includeSpamTrash : Option Bool := none
  labelIds : Option (List String) := none
deriving DecidableEq, Repr

/-- `ModifyLabelsOptions`. -/
structure ModifyLabelsOptions where
  addLabelIds : Option (List String) := none
  removeLabelIds : Option (List String) := none
deriving DecidableEq, Repr

/-- `SendMessageOptions`. -/
structure SendMessageOptions where
  to' : Recipients
  subject : Option String := none
  body : Option String := none
  html : Option Bool := none
  threadId : Option String := none
  inReplyTo : Option String := none
  labelIds : Option (List String) := none
deriving DecidableEq, Repr

/-- `CreateDraftOptions` (no `inReplyTo` key). -/
structure CreateDraftOptions where
  to' : Recipients
  subject : Option String := none
  body : Option String := none
  html : Option Bool := none
  threadId : Option String := none
deriving DecidableEq, Repr

/-- The envelope fields `buildMessage` sees for a send. -/
def SendMessageOptions.envelope (o : SendMessageOptions) : EnvelopeFields :=
  { to' := o.to', subject := o.subject, body := o.body, html := o.html,
    inReplyTo := o.inReplyTo }

/-- The envelope fields `buildMessage` sees for a draft: its options type
has no `inReplyTo` key, so that field is absent. -/
def CreateDraftOptions.envelope (o : CreateDraftOptions) : EnvelopeFields :=
  { to' := o.to', subject := o.subject, body := o.body, html := o.html,
    inReplyTo := none }

/-- `gmail.users.messages.list` / `threads.list` request shape. -/
structure ListRequest where
  userId : String
  q : Option String := none
  maxResults : Option Nat := none
  pageToken : Option String := none
  includeSpamTrash : Option Bool := none
  labelIds : Option (List String) := none
deriving DecidableEq, Repr

/-- `formats` accepted by `messages.get`. -/
inductive MsgFormat where
  | full | minimal | raw | metadata
deriving DecidableEq, Repr

/-- `formats` accepted by `threads.get`. -/
inductive ThreadFormat where
  | full | minimal | metadata
deriving DecidableEq, Repr

/-- `gmail.users.messages.get` request shape. -/
structure GetMessageRequest where
  userId : String
  id : String
  format : MsgFormat
deriving DecidableEq, Repr

/-- `gmail.users.threads.get` request shape. -/
structure GetThreadRequest where
  userId : String
  id : String
  format : ThreadFormat
deriving DecidableEq, Repr

/-- Request body of `gmail.users.messages.send`. -/
structure SendRequestBody where
  raw : String
  threadId : Option String := none
  labelIds : Option (List String) := none
deriving DecidableEq, Repr

/-- `gmail.users.messages.send` request shape. -/
structure SendRequest where
  userId : String
  requestBody : SendRequestBody
deriving DecidableEq, Repr

/-- The message part of a `drafts.create` request body. -/
structure DraftMessageBody where
  raw : String
  threadId : Option String := none
deriving DecidableEq, Repr

/-- Request body of `gmail.users.drafts.create`. -/
structure DraftCreateBody where
  message : DraftMessageBody
deriving DecidableEq, Repr

/-- `gmail.users.drafts.create` request shape. -/
structure DraftCreateRequest where
  userId : String
  requestBody : DraftCreateBody
deriving DecidableEq, Repr

/-- Request body of `gmail.users.messages.modify`. -/
structure ModifyRequestBody where
  addLabelIds : Option (List String) := none
  removeLabelIds : Option (List String) := none
deriving DecidableEq, Repr

/-- `gmail.users.messages.modify` request shape. -/
structure ModifyRequest where
  userId : String
  id : String
  requestBody : ModifyRequestBody
deriving DecidableEq, Repr

/-- `messages.trash` / `messages.untrash` request shape. -/
structure IdRequest where
  userId : String
  id : String
deriving DecidableEq, Repr

/-- `gmail.users.labels.list` request shape. -/
structure LabelsListRequest where
  userId : String
deriving DecidableEq, Repr

/-- `response.data` of `messages.list`: the collection field may be
absent. -/
structure MessagesListData where
  messages : Option (List Message) := none
deriving DecidableEq, Repr

/-- `response.data` of `labels.list`. -/
structure LabelsListData where
  labels : Option (List Label) := none
deriving DecidableEq, Repr

/-- `response.data` of `threads.list`. -/
structure ThreadsListData where
  threads : Option (List Thread) := none
deriving DecidableEq, Repr

/-- The authenticated SDK handle `this.gmail`: one function per remote
call, each returning the response data or a thrown value. -/
structure GmailApi where
  messagesList : ListRequest → Except JsUnknown MessagesListData
  messagesGet : GetMessageRequest → Except JsUnknown Message
  messagesSend : SendRequest → Except JsUnknown Message
  messagesModify : ModifyRequest → Except JsUnknown Message
  messagesTrash : IdRequest → Except JsUnknown Message
  messagesUntrash : IdRequest → Except JsUnknown Message
  draftsCreate : DraftCreateRequest → Except JsUnknown Draft
  labelsList : LabelsListRequest → Except JsUnknown LabelsListData
  threadsList : ListRequest → Except JsUnknown ThreadsListData
  threadsGet : GetThreadRequest → Except JsUnknown Thread

/-- The request `listMessages` forwards (`src/index.ts`, lines 49-56). -/
def listMessagesRequest (userId : String) (options : Option ListMessagesOptions) :
    ListRequest :=
  { userId := userId
    q := options.bind (fun o => o.q)
    maxResults := options.bind (fun o => o.maxResults)
    pageToken := options.bind (fun o => o.pageToken)
    includeSpamTrash := options.bind (fun o => o.includeSpamTrash)
    labelIds := options.bind (fun o => o.labelIds) }

/-- `GmailClient.listMessages` (`src/index.ts`, lines 47-62). -/
def listMessages (api : GmailApi) (userId : String)
    (options : Option ListMessagesOptions) :
    List String × Except JsUnknown (List Message) :=
  match api.messagesList (listMessagesRequest userId options) with
  | .ok data => ([], Except.ok (data.messages.getD []))
  | .error e => catchWith e

/-- `GmailClient.getMessage` (`src/index.ts`, lines 64-76). -/
def getMessage (api : GmailApi) (userId : String) (messageId : String)
    (format : MsgFormat) : List String × Except JsUnknown Message :=
  match api.messagesGet { userId := userId, id := messageId, format := format } with
  | .ok data => ([], Except.ok data)
  | .error e => catchWith e

/-- The request `searchMessages` forwards (`src/index.ts`, lines 80-87):
identical to a list request with `q` bound to the query. -/
def searchMessagesRequest (userId : String) (query : String)
    (options : Option SearchMessagesOptions) : ListRequest :=
  { userId := userId
    q := some query
    maxResults := options.bind (fun o => o.maxResults)
    pageToken := options.bind (fun o => o.pageToken)
    includeSpamTrash := options.bind (fun o => o.includeSpamTrash)
    labelIds := options.bind (fun o => o.labelIds) }

/-- `GmailClient.searchMessages` (`src/index.ts`, lines 78-93). -/
def searchMessages (api : GmailApi) (userId : String) (query : String)
    (options : Option SearchMessagesOptions) :
    List String × Except JsUnknown (List Message) :=
  match api.messagesList (searchMessagesRequest userId query options) with
  | .ok data => ([], Except.ok (data.messages.getD []))
  | .error e => catchWith e

/-- The request `sendMessage` forwards (`src/index.ts`, lines 98-105). -/
def sendMessageRequest (userId : String) (options : SendMessageOptions) :
    SendRequest :=
  { userId := userId
    requestBody :=
      { raw := base64Encode (buildMessage options.envelope)
        threadId := options.threadId
        labelIds := options.labelIds } }

/-- `GmailClient.sendMessage` (`src/index.ts`, lines 95-111). -/
def sendMessage (api : GmailApi) (userId : String)
    (options : SendMessageOptions) : List String × Except JsUnknown Message :=
  match api.messagesSend (sendMessageRequest userId options) with
  | .ok data => ([], Except.ok data)
  | .error e => catchWith e

/-- The request `createDraft` forwards (`src/index.ts`, lines 116-124). -/
def createDraftRequest (userId : String) (options : CreateDraftOptions) :
    DraftCreateRequest :=
  { userId := userId
    requestBody :=
      { message :=
        { raw := base64Encode (buildMessage options.envelope)
          threadId := options.threadId } } }

/-- `GmailClient.createDraft` (`src/index.ts`, lines 113-130). -/
def createDraft (api : GmailApi) (userId : String)
    (options : CreateDraftOptions) : List String × Except JsUnknown Draft :=
  match api.draftsCreate (createDraftRequest userId options) with
  | .ok data => ([], Except.ok data)
  | .error e => catchWith e

/-- `GmailClient.listLabels` (`src/index.ts`, lines 132-139). -/
def listLabels (api : GmailApi) (userId : String) :
    List String × Except JsUnknown (List Label) :=
  match api.labelsList { userId := userId } with
  | .ok data => ([], Except.ok (data.labels.getD []))
  | .error e => catchWith e

/-- `GmailClient.modifyMessageLabels` (`src/index.ts`, lines 141-156). -/
def modifyMessageLabels (api : GmailApi) (userId : String) (messageId : String)
    (options : ModifyLabelsOptions) : List String × Except JsUnknown Message :=
  match api.messagesModify
      { userId := userId, id := messageId,
        requestBody :=
          { addLabelIds := options.addLabelIds
            removeLabelIds := options.removeLabelIds } } with
  | .ok data => ([], Except.ok data)
  | .error e => catchWith e

/-- `GmailClient.trashMessage` (`src/index.ts`, lines 158-169). -/
def trashMessage (api : GmailApi) (userId : String) (messageId : String) :
    List String × Except JsUnknown Message :=
  match api.messagesTrash { userId := userId, id := messageId } with
  | .ok data => ([], Except.ok data)
  | .error e => catchWith e

/-- `GmailClient.untrashMessage` (`src/index.ts`, lines 171-182). -/
def untrashMessage (api : GmailApi) (userId : String) (messageId : String) :
    List String × Except JsUnknown Message :=
  match api.messagesUntrash { userId := userId, id := messageId } with
  | .ok data => ([], Except.ok data)
  | .error e => catchWith e

/-- The request `listThreads` forwards (`src/index.ts`, lines 186-193). -/
def listThreadsRequest (userId : String) (options : Option ListThreadsOptions) :
    ListRequest :=
  { userId := userId
    q := options.bind (fun o => o.q)
    maxResults := options.bind (fun o => o.maxResults)
    pageToken := options.bind (fun o => o.pageToken)
    includeSpamTrash := options.bind (fun o => o.includeSpamTrash)
    labelIds := options.bind (fun o => o.labelIds) }

/-- `GmailClient.listThreads` (`src/index.ts`, lines 184-199). -/
def listThreads (api : GmailApi) (userId : String)
    (options : Option ListThreadsOptions) :
    List String × Except JsUnknown (List Thread) :=
  match api.threadsList (listThreadsRequest userId options) with
  | .ok data => ([], Except.ok (data.threads.getD []))
  | .error e => catchWith e

/-- `GmailClient.getThread` (`src/index.ts`, lines 201-213). -/
def getThread (api : GmailApi) (userId : String) (threadId : String)
    (format : ThreadFormat) : List String × Except JsUnknown Thread :=
  match api.threadsGet { userId := userId, id := threadId, format := format } with
  | .ok data => ([], Except.ok data)
  | .error e => catchWith e

/-! ### Protocol-dispatch mode (the `CallToolRequestSchema` handler)

The stdio server's tool dispatcher (server entry point, lines 706-897):
resolves credentials, constructs a client, switches on the tool name, and
serializes the façade result, converting every caught error into an
error-flagged text payload. `JSON.stringify` on each result type is an
opaque external function, one field per payload shape. -/

/-- One `{ type: 'text', text }` content item of a tool response. -/
structure TextContent where
  type : String
  text : String
deriving DecidableEq, Repr

/-- The value returned by the `CallToolRequestSchema` handler. -/
structure CallToolResult where
  content : List TextContent
  isError : Bool := false
deriving DecidableEq, Repr

/-- The argument record of a tool invocation, with the fields the
dispatcher reads. Fields the tool's declared input schema marks required
(`messageId`, `query`, the recipient list, `threadId` for thread
retrieval) are modelled with their required types; the wire key `format`
is decoded against the invoked tool's own closed enumeration, hence one
field per enumeration here. -/
structure ToolArgs where
  tokens : Option Tokens := none
  q : Option String := none
  maxResults : Option Nat := none
  pageToken : Option String := none
  includeSpamTrash : Option Bool := none
  labelIds : Option (List String) := none
  messageId : String := ""
  threadId : Option String := none
  query : String := ""
  to' : Recipients := Recipients.one ""
  subject : Option String := none
  body : Option String := none
  html : Option Bool := none
  inReplyTo : Option String := none
  addLabelIds : Option (List String) := none
  removeLabelIds : Option (List String) := none
  format : Option MsgFormat := none
  formatThread : Option ThreadFormat := none
deriving Repr

/-- Everything the dispatcher depends on: credential-resolution inputs,
the SDK handle of the constructed client, and `JSON.stringify` for each
result payload shape. -/
structure ServerDeps where
  ext : ResolverExt
  env : ResolverEnv
  fs : ResolverFs
  api : GmailApi
  stringifyMessages : List Message → String
  stringifyMessage : Message → String
  stringifyDraft : Draft → String
  stringifyLabels : List Label → String
  stringifyThreads : List Thread → String
  stringifyThread : Thread → String

/-- The error-flagged payload built by the dispatcher's catch clause:
`{ content: [{ type: 'text', text: 'Error: ' + message }], isError: true }`. -/
def errResult (message : String) : CallToolResult :=
  { content := [{ type := "text", text := "Error: " ++ message }], isError := true }

/-- A successful text payload: `{ content: [{ type: 'text', text }] }`. -/
def okResult (text : String) : CallToolResult :=
  { content := [{ type := "text", text := text }], isError := false }

/-- Runs one façade call inside the dispatcher's try block: a success is
serialized, a thrown value is caught at the boundary and converted via
`error instanceof Error ? error.message : String(error)`. -/
def dispatchStep {α : Type} (stringify : α → String)
    (r : List String × Except JsUnknown α) : CallToolResult :=
  match r.2 with
  | .ok v => okResult (stringify v)
  | .error e => errResult (jsErrMessage e)

/-- The `CallToolRequestSchema` handler (server entry point, lines
706-897): resolve credentials (a failure is caught and error-flagged for
every tool name, since `createGmailClient` runs before the switch), then
dispatch on the tool name; an unknown name yields an error-flagged
`Unknown tool` payload. -/
def callToolHandler (d : ServerDeps) (name : String) (args : ToolArgs) :
    CallToolResult :=
  match resolveTokens d.ext d.env d.fs args.tokens with
  | .error m => errResult m
  | .ok _tokens =>
    if name = "gmailListMessages" then
      dispatchStep d.stringifyMessages
        (listMessages d.api "me"
          (some { q := args.q, maxResults := args.maxResults,
                  pageToken := args.pageToken,
                  includeSpamTrash := args.includeSpamTrash,
                  labelIds := args.labelIds }))
    else if name = "gmailGetMessage" then
      dispatchStep d.stringifyMessage
        (getMessage d.api "me" args.messageId (args.format.getD MsgFormat.full))
    else if name = "gmailSearchMessages" then
      dispatchStep d.stringifyMessages
        (searchMessages d.api "me" args.query
          (some { maxResults := args.maxResults, pageToken := args.pageToken,
                  includeSpamTrash := none, labelIds := args.labelIds }))
    else if name = "gmailSendMessage" then
      dispatchStep d.stringifyMessage
        (sendMessage d.api "me"
          { to' := args.to', subject := args.subject, body := args.body,
            html := args.html, threadId := args.threadId,
            inReplyTo := args.inReplyTo, labelIds := none })
    else if name = "gmailCreateDraft" then
      dispatchStep d.stringifyDraft
        (createDraft d.api "me"
          { to' := args.to', subject := args.subject, body := args.body,
            html := args.html, threadId := args.threadId })
    else if name = "gmailListLabels" then
      dispatchStep d.stringifyLabels (listLabels d.api "me")
    else if name = "gmailModifyMessageLabels" then
      dispatchStep d.stringifyMessage
        (modifyMessageLabels d.api "me" args.messageId
          { addLabelIds := args.addLabelIds, removeLabelIds := args.removeLabelIds })
    else if name = "gmailTrashMessage" then
      dispatchStep d.stringifyMessage (trashMessage d.api "me" args.messageId)
    else if name = "gmailUntrashMessage" then
      dispatchStep d.stringifyMessage (untrashMessage d.api "me" args.messageId)
    else if name = "gmailListThreads" then
      dispatchStep d.stringifyThreads
        (listThreads d.api "me"
          (some { q := args.q, maxResults := args.maxResults,
                  pageToken := args.pageToken, includeSpamTrash := none,
                  labelIds := args.labelIds }))
    else if name = "gmailGetThread" then
      dispatchStep d.stringifyThread
        (getThread d.api "me" (args.threadId.getD "")
          (args.formatThread.getD ThreadFormat.full))
    else
      { content := [{ type := "text", text := "Unknown tool: " ++ name }],
        isError := true }

/-! ### Concrete fixtures

Closed inputs used to instantiate the quantified theorems below. -/

/-- A directly supplied bundle. -/
def tokensA : Tokens := { access_token := some "prov-token" }

/-- The bundle encoded by the environment variable fixture. -/
def tokensB : Tokens := { access_token := some "env-token" }

/-- The bundle encoded by the token-file fixture. -/
def tokensC : Tokens := { access_token := some "file-token" }

/-- A concrete instantiation of the external functions: a two-point JSON
parser and an identity `path.resolve`. -/
def extFixture : ResolverExt :=
  { parseJson := fun s =>
      if s = "env-json" then some tokensB
      else if s = "file-json" then some tokensC
      else none
    pathResolve := fun p => p }

/-- Both resolver environment variables unset. -/
def envUnset : ResolverEnv := {}

/-- `GMAIL_TOKEN` set to well-formed content. -/
def envWithToken : ResolverEnv := { gmailToken := some "env-json" }

/-- `GMAIL_TOKEN` unset, `GMAIL_TOKEN_FILE` pointing at a fixed path. -/
def envWithFilePath : ResolverEnv := { gmailTokenFile := some "/tmp/token.json" }

/-- No token file exists. -/
def fsEmpty : ResolverFs :=
  { fileExists := fun _ => false, readFile := fun _ => none }

/-- The token file exists and holds well-formed content. -/
def fsGood : ResolverFs :=
  { fileExists := fun _ => true, readFile := fun _ => some "file-json" }

/-- The token file exists but reading it throws. -/
def fsUnreadable : ResolverFs :=
  { fileExists := fun _ => true, readFile := fun _ => none }

/-- The token file exists but holds malformed content. -/
def fsBadJson : ResolverFs :=
  { fileExists := fun _ => true, readFile := fun _ => some "not-json" }

/-- A bundle whose underscore-convention access token is present but empty
while the camel-case spelling holds a value. -/
def tokensMixedEmpty : Tokens :=
  { access_token := some "", accessToken := some "camel-value" }

/-- Send options exercising every envelope feature: two recipients, no
subject, HTML flag set, a reply identifier. -/
def sendOptsFixture : SendMessageOptions :=
  { to' := Recipients.many ["a@example.com", "b@example.com"]
    subject := none
    body := some "Hello"
    html := some true
    threadId := some "t-1"
    inReplyTo := some "msg-1" }

/-- A concrete message payload. -/
def msgFixture : Message := { id := some "m-1", threadId := some "t-1" }

/-- A concrete label payload. -/
def labelFixture : Label := { id := some "INBOX", name := some "INBOX" }

/-- A concrete thread payload. -/
def threadFixture : Thread := { id := some "t-1" }

/-- An SDK handle on which every remote call throws the same `Error`. -/
def apiAllFail : GmailApi :=
  { messagesList := fun _ => Except.error (JsUnknown.errorVal "boom")
    messagesGet := fun _ => Except.error (JsUnknown.errorVal "boom")
    messagesSend := fun _ => Except.error (JsUnknown.errorVal "boom")
    messagesModify := fun _ => Except.error (JsUnknown.errorVal "boom")
    messagesTrash := fun _ => Except.error (JsUnknown.errorVal "boom")
    messagesUntrash := fun _ => Except.error (JsUnknown.errorVal "boom")
    draftsCreate := fun _ => Except.error (JsUnknown.errorVal "boom")
    labelsList := fun _ => Except.error (JsUnknown.errorVal "boom")
    threadsList := fun _ => Except.error (JsUnknown.errorVal "boom")
    threadsGet := fun _ => Except.error (JsUnknown.errorVal "boom") }

/-- An SDK handle on which every remote call succeeds; the list responses
omit their collection fields. -/
def apiAllOkEmpty : GmailApi :=
  { messagesList := fun _ => Except.ok {}
    messagesGet := fun _ => Except.ok msgFixture
    messagesSend := fun _ => Except.ok msgFixture
    messagesModify := fun _ => Except.ok msgFixture
    messagesTrash := fun _ => Except.ok msgFixture
    messagesUntrash := fun _ => Except.ok msgFixture
    draftsCreate := fun _ => Except.ok {}
    labelsList := fun _ => Except.ok {}
    threadsList := fun _ => Except.ok {}
    threadsGet := fun _ => Except.ok threadFixture }

/-- An SDK handle whose list responses carry populated collections. -/
def apiAllOkFull : GmailApi :=
  { messagesList := fun _ => Except.ok { messages := some [msgFixture] }
    messagesGet := fun _ => Except.ok msgFixture
    messagesSend := fun _ => Except.ok msgFixture
    messagesModify := fun _ => Except.ok msgFixture
    messagesTrash := fun _ => Except.ok msgFixture
    messagesUntrash := fun _ => Except.ok msgFixture
    draftsCreate := fun _ => Except.ok {}
    labelsList := fun _ => Except.ok { labels := some [labelFixture] }
    threadsList := fun _ => Except.ok { threads := some [threadFixture] }
    threadsGet := fun _ => Except.ok threadFixture }

/-- Dispatcher dependencies whose remote calls all fail. -/
def depsFail : ServerDeps :=
  { ext := extFixture, env := envUnset, fs := fsEmpty, api := apiAllFail
    stringifyMessages := fun _ => "ser"
    stringifyMessage := fun _ => "ser"
    stringifyDraft := fun _ => "ser"
    stringifyLabels := fun _ => "ser"
    stringifyThreads := fun _ => "ser"
    stringifyThread := fun _ => "ser" }

/-- Dispatcher dependencies whose remote calls all succeed. -/
def depsOk : ServerDeps :=
  { ext := extFixture, env := envUnset, fs := fsEmpty, api := apiAllOkEmpty
    stringifyMessages := fun _ => "ser"
    stringifyMessage := fun _ => "ser"
    stringifyDraft := fun _ => "ser"
    stringifyLabels := fun _ => "ser"
    stringifyThreads := fun _ => "ser"
    stringifyThread := fun _ => "ser" }

/-- The names registered in the dispatcher's switch. -/
def toolNames : List String :=
  ["gmailListMessages", "gmailGetMessage", "gmailSearchMessages",
   "gmailSendMessage", "gmailCreateDraft", "gmailListLabels",
   "gmailModifyMessageLabels", "gmailTrashMessage", "gmailUntrashMessage",
   "gmailListThreads", "gmailGetThread"]

/-- Spec-side construction for the refinement claim: the list options
obtained from search options by binding the `q` field to the query. -/
def searchToListOptions (query : String) (options : Option SearchMessagesOptions) :
    ListMessagesOptions :=
  { q := some query
    maxResults := options.bind (fun o => o.maxResults)
    pageToken := options.bind (fun o => o.pageToken)
    includeSpamTrash := options.bind (fun o => o.includeSpamTrash)
    labelIds := options.bind (fun o => o.labelIds) }

/-- `GMAIL_TOKEN` set to malformed content. -/
def envWithBadToken : ResolverEnv := { gmailToken := some "bad-json" }

/-! ## Theorems -/

/-- `String.data` distributes over append. -/
theorem string_data_append (s p : String) : (s ++ p).data = s.data ++ p.data := by
  cases s; cases p; rfl

/-- The head of an append with a non-empty left part. -/
theorem head_of_append (l₁ l₂ : List Char) (c : Char) (h : l₁.head? = some c) :
    (l₁ ++ l₂).head? = some c := by
  cases l₁ <;> simp_all

/-- A string decomposition exhibits an infix at the character-list level. -/
theorem str_infix_of_decomp (pre mid suf all : String)
    (h : pre ++ mid ++ suf = all) : mid.data <:+: all.data :=
  ⟨pre.data, suf.data, by rw [← string_data_append, ← string_data_append, h]⟩

/-- Two strings with distinct first characters are distinct, whatever is
appended to the first. -/
theorem append_ne_of_head (s p t : String) (c d : Char)
    (hs : s.data.head? = some c) (ht : t.data.head? = some d) (hcd : c ≠ d) :
    s ++ p ≠ t := by
  intro h
  have h1 : (s ++ p).data.head? = some c := by
    rw [string_data_append]; exact head_of_append _ _ _ hs
  rw [h, ht] at h1
  exact hcd (Option.some.inj h1).symm

/-- C8: a directly supplied credential bundle — including a partially
empty one, since `t` ranges over all bundles — is returned exactly as-is
and unvalidated, and the result does not depend on the environment
variable, the file system, or the external parse/resolve functions. -/
theorem resolveTokens_provided_as_is (ext : ResolverExt) (env : ResolverEnv)
    (fs : ResolverFs) (t : Tokens) :
    resolveTokens ext env fs (some t) = Except.ok t ∧
    ∀ (ext' : ResolverExt) (env' : ResolverEnv) (fs' : ResolverFs),
      resolveTokens ext env fs (some t) = resolveTokens ext' env' fs' (some t) :=
  ⟨rfl, fun _ _ _ => rfl⟩

/-- C1: resolution priority, first match wins, no merging. A directly
supplied bundle is returned whatever the other sources hold; otherwise a
set environment variable that parses as JSON yields exactly its parsed
value whatever the file holds; otherwise (the variable unset — or empty,
which JavaScript treats as unset) an existing, readable, parseable file
yields exactly its parsed content. The hypothesis `hempty` records that
`JSON.parse` rejects the empty string. -/
theorem resolveTokens_priority (ext : ResolverExt) (env : ResolverEnv)
    (fs : ResolverFs) (hempty : ext.parseJson "" = none) :
    (∀ t, resolveTokens ext env fs (some t) = Except.ok t) ∧
    (∀ s t, env.gmailToken = some s → ext.parseJson s = some t →
       resolveTokens ext env fs none = Except.ok t) ∧
    (∀ c t, (env.gmailToken = none ∨ env.gmailToken = some "") →
       fs.fileExists (resolvedTokenPath ext env) = true →
       fs.readFile (resolvedTokenPath ext env) = some c →
       ext.parseJson c = some t →
       resolveTokens ext env fs none = Except.ok t) := by
  refine ⟨fun t => rfl, ?_, ?_⟩
  · intro s t hs hp
    by_cases hse : s = ""
    · subst hse; rw [hempty] at hp; exact Option.noConfusion hp
    · simp [resolveTokens, hs, hse, hp]
  · intro c t henv hex hread hp
    rcases henv with h | h <;>
      simp [resolveTokens, h, resolveFromFile, hex, hread, hp]

/-- C1 witness: with a concrete parser, concrete environments and file
systems, each of the three sources is selected at its priority. -/
theorem resolveTokens_priority_witness :
    resolveTokens extFixture envWithToken fsGood (some tokensA) = Except.ok tokensA ∧
    resolveTokens extFixture envWithToken fsGood none = Except.ok tokensB ∧
    resolveTokens extFixture envUnset fsGood none = Except.ok tokensC := by
  have h1 := resolveTokens_priority extFixture envWithToken fsGood rfl
  have h2 := resolveTokens_priority extFixture envUnset fsGood rfl
  exact ⟨h1.1 tokensA, h1.2.1 "env-json" tokensB rfl rfl,
    h2.2.2 "file-json" tokensC (Or.inl rfl) rfl rfl rfl⟩

/-- C7: when no bundle is supplied, the environment variable is unset (or
empty, which JavaScript treats as unset) and the token file does not
exist, resolution fails with the message that enumerates all three supply
methods: the environment variable, the file variable, and the direct
parameter. -/
theorem resolveTokens_no_source (ext : ResolverExt) (env : ResolverEnv)
    (fs : ResolverFs)
    (henv : env.gmailToken = none ∨ env.gmailToken = some "")
    (hex : fs.fileExists (resolvedTokenPath ext env) = false) :
    resolveTokens ext env fs none = Except.error noTokensMsg ∧
    ("GMAIL_TOKEN env var").data <:+: noTokensMsg.data ∧
    ("GMAIL_TOKEN_FILE env var pointing to JSON file").data <:+: noTokensMsg.data ∧
    ("direct function parameter").data <:+: noTokensMsg.data := by
  refine ⟨?_,
    str_infix_of_decomp "No Gmail tokens found. Provide tokens via: 1) "
      "GMAIL_TOKEN env var"
      ", 2) GMAIL_TOKEN_FILE env var pointing to JSON file, 3) direct function parameter"
      noTokensMsg rfl,
    str_infix_of_decomp "No Gmail tokens found. Provide tokens via: 1) GMAIL_TOKEN env var, 2) "
      "GMAIL_TOKEN_FILE env var pointing to JSON file"
      ", 3) direct function parameter" noTokensMsg rfl,
    str_infix_of_decomp
      "No Gmail tokens found. Provide tokens via: 1) GMAIL_TOKEN env var, 2) GMAIL_TOKEN_FILE env var pointing to JSON file, 3) "
      "direct function parameter" "" noTokensMsg rfl⟩
  rcases henv with h | h <;>
    simp [resolveTokens, h, resolveFromFile, hex]

/-- C7 witness: the no-source error at a concrete empty environment and
file system. -/
theorem resolveTokens_no_source_witness :
    resolveTokens extFixture envUnset fsEmpty none = Except.error noTokensMsg ∧
    ("GMAIL_TOKEN env var").data <:+: noTokensMsg.data ∧
    ("GMAIL_TOKEN_FILE env var pointing to JSON file").data <:+: noTokensMsg.data ∧
    ("direct function parameter").data <:+: noTokensMsg.data :=
  resolveTokens_no_source extFixture envUnset fsEmpty (Or.inl rfl) rfl

/-- C6 counterexample: an unreadable existing file and an existing file
with malformed JSON produce the very same error value — the two failure
modes are not distinguishable by message, contrary to the claim. -/
theorem resolveTokens_file_errors_indistinguishable :
    resolveTokens extFixture envWithFilePath fsUnreadable none =
      Except.error (fileErrMsg "/tmp/token.json") ∧
    resolveTokens extFixture envWithFilePath fsBadJson none =
      Except.error (fileErrMsg "/tmp/token.json") :=
  ⟨rfl, rfl⟩

/-- C6 amended: the three failure categories — malformed JSON in the
environment variable, a failing file source, no source at all — carry
pairwise distinct messages, and malformed environment JSON is
distinguishable from malformed file JSON; but within the file source, an
unreadable file and a malformed file share one message. -/
theorem resolveTokens_error_messages :
    (∀ (ext : ResolverExt) (env : ResolverEnv) (fs : ResolverFs) (s : String),
       env.gmailToken = some s → s ≠ "" → ext.parseJson s = none →
       resolveTokens ext env fs none = Except.error envJsonErrMsg) ∧
    (∀ (ext : ResolverExt) (env : ResolverEnv) (fs : ResolverFs),
       (env.gmailToken = none ∨ env.gmailToken = some "") →
       fs.fileExists (resolvedTokenPath ext env) = true →
       fs.readFile (resolvedTokenPath ext env) = none →
       resolveTokens ext env fs none =
         Except.error (fileErrMsg (resolvedTokenPath ext env))) ∧
    (∀ (ext : ResolverExt) (env : ResolverEnv) (fs : ResolverFs) (c : String),
       (env.gmailToken = none ∨ env.gmailToken = some "") →
       fs.fileExists (resolvedTokenPath ext env) = true →
       fs.readFile (resolvedTokenPath ext env) = some c →
       ext.parseJson c = none →
       resolveTokens ext env fs none =
         Except.error (fileErrMsg (resolvedTokenPath ext env))) ∧
    (∀ p, fileErrMsg p ≠ envJsonErrMsg) ∧
    (∀ p, fileErrMsg p ≠ noTokensMsg) ∧
    envJsonErrMsg ≠ noTokensMsg := by
  refine ⟨?_, ?_, ?_, ?_, ?_, by decide⟩
  · intro ext env fs s hs hse hp
    simp [resolveTokens, hs, hse, hp]
  · intro ext env fs henv hex hread
    rcases henv with h | h <;>
      simp [resolveTokens, h, resolveFromFile, hex, hread]
  · intro ext env fs c henv hex hread hp
    rcases henv with h | h <;>
      simp [resolveTokens, h, resolveFromFile, hex, hread, hp]
  · intro p
    exact append_ne_of_head _ p _ 'F' 'G' rfl rfl (by decide)
  · intro p
    exact append_ne_of_head _ p _ 'F' 'N' rfl rfl (by decide)

/-- C6 amended witness: the three failure categories at concrete inputs,
and the distinctness of the file message from the environment message at
the default path. -/
theorem resolveTokens_error_messages_witness :
    resolveTokens extFixture envWithBadToken fsEmpty none =
      Except.error envJsonErrMsg ∧
    resolveTokens extFixture envUnset fsUnreadable none =
      Except.error (fileErrMsg (resolvedTokenPath extFixture envUnset)) ∧
    resolveTokens extFixture envUnset fsBadJson none =
      Except.error (fileErrMsg (resolvedTokenPath extFixture envUnset)) ∧
    fileErrMsg "./token.json" ≠ envJsonErrMsg := by
  have h := resolveTokens_error_messages
  exact ⟨h.1 extFixture envWithBadToken fsEmpty "bad-json" rfl (by decide) rfl,
    h.2.1 extFixture envUnset fsUnreadable (Or.inl rfl) rfl rfl,
    h.2.2.1 extFixture envUnset fsBadJson "not-json" (Or.inl rfl) rfl rfl rfl,
    h.2.2.2.1 "./token.json"⟩

/-- `jsOrStr` selects its first argument exactly when that argument is
truthy. -/
theorem jsOrStr_eq_ite (a b : Option String) :
    jsOrStr a b = if jsTruthyStr a then a else b := by
  cases a with
  | none => simp [jsOrStr, jsTruthyStr]
  | some s => by_cases h : s = "" <;> simp [jsOrStr, jsTruthyStr, h]

/-- `jsOrInt` selects its first argument exactly when that argument is
truthy. -/
theorem jsOrInt_eq_ite (a b : Option Int) :
    jsOrInt a b = if jsTruthyInt a then a else b := by
  cases a with
  | none => simp [jsOrInt, jsTruthyInt]
  | some n => by_cases h : n = 0 <;> simp [jsOrInt, jsTruthyInt, h]

/-- C2 counterexample: a bundle whose underscore-convention access token
is present (the empty string) while the camel spelling holds a value;
normalization selects the camel value, not the present underscore value —
JavaScript `||` skips falsy present fields. -/
theorem normalize_underscore_present_not_selected :
    tokensMixedEmpty.access_token = some "" ∧
    (normalizeTokens tokensMixedEmpty).access_token = some "camel-value" ∧
    (normalizeTokens tokensMixedEmpty).access_token ≠ tokensMixedEmpty.access_token :=
  ⟨rfl, rfl, by decide⟩

/-- C2 amended: per field, normalization selects the underscore-convention
value when it is truthy (present and non-empty, resp. non-zero), and the
camel-case value otherwise; fields are resolved independently of one
another; the mapping is total (it is a function), and fields absent in the
input remain absent in the output. -/
theorem normalizeTokens_field_selection (t : Tokens) :
    ((normalizeTokens t).access_token =
       if jsTruthyStr t.access_token then t.access_token else t.accessToken) ∧
    ((normalizeTokens t).refresh_token =
       if jsTruthyStr t.refresh_token then t.refresh_token else t.refreshToken) ∧
    ((normalizeTokens t).expiry_date =
       if jsTruthyInt t.expiry_date then t.expiry_date else t.expiryDate) ∧
    ((normalizeTokens t).token_type =
       if jsTruthyStr t.token_type then t.token_type else t.tokenType) ∧
    (t.access_token = none → t.accessToken = none →
       (normalizeTokens t).access_token = none) ∧
    (t.refresh_token = none → t.refreshToken = none →
       (normalizeTokens t).refresh_token = none) ∧
    (t.expiry_date = none → t.expiryDate = none →
       (normalizeTokens t).expiry_date = none) ∧
    (t.token_type = none → t.tokenType = none →
       (normalizeTokens t).token_type = none) ∧
    (∀ t' : Tokens, t.access_token = t'.access_token →
       t.accessToken = t'.accessToken →
       (normalizeTokens t).access_token = (normalizeTokens t').access_token) ∧
    (∀ t' : Tokens, t.refresh_token = t'.refresh_token →
       t.refreshToken = t'.refreshToken →
       (normalizeTokens t).refresh_token = (normalizeTokens t').refresh_token) ∧
    (∀ t' : Tokens, t.expiry_date = t'.expiry_date →
       t.expiryDate = t'.expiryDate →
       (normalizeTokens t).expiry_date = (normalizeTokens t').expiry_date) ∧
    (∀ t' : Tokens, t.token_type = t'.token_type →
       t.tokenType = t'.tokenType →
       (normalizeTokens t).token_type = (normalizeTokens t').token_type) := by
  refine ⟨jsOrStr_eq_ite _ _, jsOrStr_eq_ite _ _, jsOrInt_eq_ite _ _,
    jsOrStr_eq_ite _ _, ?_, ?_, ?_, ?_, ?_, ?_, ?_, ?_⟩
  · intro h1 h2; simp [normalizeTokens, h1, h2, jsOrStr]
  · intro h1 h2; simp [normalizeTokens, h1, h2, jsOrStr]
  · intro h1 h2; simp [normalizeTokens, h1, h2, jsOrInt]
  · intro h1 h2; simp [normalizeTokens, h1, h2, jsOrStr]
  · intro t' h1 h2; simp [normalizeTokens, h1, h2]
  · intro t' h1 h2; simp [normalizeTokens, h1, h2]
  · intro t' h1 h2; simp [normalizeTokens, h1, h2]
  · intro t' h1 h2; simp [normalizeTokens, h1, h2]

/-- C2 amended witness: the selection rule evaluated on the mixed bundle
(empty underscore value, populated camel value), and absence preserved on
the empty bundle. -/
theorem normalizeTokens_field_selection_witness :
    (normalizeTokens tokensMixedEmpty).access_token =
      (if jsTruthyStr tokensMixedEmpty.access_token then
        tokensMixedEmpty.access_token else tokensMixedEmpty.accessToken) ∧
    (normalizeTokens ({} : Tokens)).refresh_token = none :=
  ⟨(normalizeTokens_field_selection tokensMixedEmpty).1,
    (normalizeTokens_field_selection ({} : Tokens)).2.2.2.2.2.1 rfl rfl⟩

/-- Appending the empty string is the identity. -/
theorem string_append_empty (s : String) : s ++ "" = s := by
  cases s with
  | mk l => exact congrArg String.mk (List.append_nil l)

/-- C3: properties of the constructed message envelope. A multi-recipient
list is joined with a comma in the To header; a missing subject yields the
placeholder; the Content-Type header (always the third header line) is
`text/html` exactly when the html flag is set and `text/plain` otherwise;
a supplied (non-empty) in-reply-to identifier contributes both an
In-Reply-To and a References header citing it; and the request transmits
the base64 encoding of the envelope. -/
theorem sendMessage_envelope (userId : String) (opts : SendMessageOptions) :
    (∀ addrs, opts.envelope.to' = Recipients.many addrs →
       ("To: " ++ String.intercalate "," addrs) ∈ messageHeaders opts.envelope) ∧
    (opts.envelope.subject = none →
       "Subject: (no subject)" ∈ messageHeaders opts.envelope) ∧
    ((messageHeaders opts.envelope).get? 2 =
       some ("Content-Type: " ++
         (if opts.envelope.html = some true then "text/html" else "text/plain") ++
         "; charset=\"UTF-8\"")) ∧
    (∀ r, opts.envelope.inReplyTo = some r → r ≠ "" →
       ("In-Reply-To: " ++ r) ∈ messageHeaders opts.envelope ∧
       ("References: " ++ r) ∈ messageHeaders opts.envelope) ∧
    (sendMessageRequest userId opts).requestBody.raw =
      base64Encode (buildMessage opts.envelope) := by
  refine ⟨?_, ?_, ?_, ?_, rfl⟩
  · intro addrs h
    cases hr : opts.envelope.inReplyTo with
    | none => simp [messageHeaders, h, hr]
    | some r => by_cases hre : r = "" <;> simp [messageHeaders, h, hr, hre]
  · intro hs
    cases hr : opts.envelope.inReplyTo with
    | none => simp [messageHeaders, hs, hr]
    | some r => by_cases hre : r = "" <;> simp [messageHeaders, hs, hr, hre]
  · cases hr : opts.envelope.inReplyTo with
    | none => simp [messageHeaders, hr]
    | some r => by_cases hre : r = "" <;> simp [messageHeaders, hr, hre]
  · intro r hr hre
    simp [messageHeaders, hr, hre]

/-- C3 witness: the envelope built from the concrete send options (two
recipients, no subject, html flag set, reply identifier `msg-1`). -/
theorem sendMessage_envelope_witness :
    "To: a@example.com,b@example.com" ∈ messageHeaders sendOptsFixture.envelope ∧
    "Subject: (no subject)" ∈ messageHeaders sendOptsFixture.envelope ∧
    (messageHeaders sendOptsFixture.envelope).get? 2 =
      some ("Content-Type: " ++
        (if sendOptsFixture.envelope.html = some true then "text/html"
         else "text/plain") ++ "; charset=\"UTF-8\"") ∧
    "In-Reply-To: msg-1" ∈ messageHeaders sendOptsFixture.envelope ∧
    "References: msg-1" ∈ messageHeaders sendOptsFixture.envelope := by
  have h := sendMessage_envelope "me" sendOptsFixture
  exact ⟨h.1 ["a@example.com", "b@example.com"] rfl, h.2.1 rfl, h.2.2.1,
    (h.2.2.2.1 "msg-1" rfl (by decide)).1, (h.2.2.2.1 "msg-1" rfl (by decide)).2⟩

/-- C4: error normalization. An error-shaped failure is logged with its
message (the message is an infix of the logged line) and rethrown with its
content unchanged; a non-error-shaped failure is logged generically and
replaced by an error carrying the generic `Unknown Gmail API error`
message. Each of the eleven façade operations propagates the normalized
failure to its caller. -/
theorem facade_error_normalization :
    (∀ m, (handleError (JsUnknown.errorVal m)).1 = "Gmail API error: " ++ m ∧
       m.data <:+: (handleError (JsUnknown.errorVal m)).1.data ∧
       (handleError (JsUnknown.errorVal m)).2 = JsUnknown.errorVal m) ∧
    (∀ s, (handleError (JsUnknown.nonError s)).1 = "Unknown Gmail API error: " ++ s ∧
       (handleError (JsUnknown.nonError s)).2 =
         JsUnknown.errorVal "Unknown Gmail API error") ∧
    (∀ (api : GmailApi) (uid : String) (opts : Option ListMessagesOptions) e,
       api.messagesList (listMessagesRequest uid opts) = Except.error e →
       listMessages api uid opts =
         ([(handleError e).1], Except.error (handleError e).2)) ∧
    (∀ (api : GmailApi) (uid mid : String) (fmt : MsgFormat) e,
       api.messagesGet { userId := uid, id := mid, format := fmt } = Except.error e →
       getMessage api uid mid fmt =
         ([(handleError e).1], Except.error (handleError e).2)) ∧
    (∀ (api : GmailApi) (uid query : String) (opts : Option SearchMessagesOptions) e,
       api.messagesList (searchMessagesRequest uid query opts) = Except.error e →
       searchMessages api uid query opts =
         ([(handleError e).1], Except.error (handleError e).2)) ∧
    (∀ (api : GmailApi) (uid : String) (opts : SendMessageOptions) e,
       api.messagesSend (sendMessageRequest uid opts) = Except.error e →
       sendMessage api uid opts =
         ([(handleError e).1], Except.error (handleError e).2)) ∧
    (∀ (api : GmailApi) (uid : String) (opts : CreateDraftOptions) e,
       api.draftsCreate (createDraftRequest uid opts) = Except.error e →
       createDraft api uid opts =
         ([(handleError e).1], Except.error (handleError e).2)) ∧
    (∀ (api : GmailApi) (uid : String) e,
       api.labelsList { userId := uid } = Except.error e →
       listLabels api uid = ([(handleError e).1], Except.error (handleError e).2)) ∧
    (∀ (api : GmailApi) (uid mid : String) (opts : ModifyLabelsOptions) e,
       api.messagesModify
         { userId := uid, id := mid,
           requestBody := { addLabelIds := opts.addLabelIds,
                            removeLabelIds := opts.removeLabelIds } } = Except.error e →
       modifyMessageLabels api uid mid opts =
         ([(handleError e).1], Except.error (handleError e).2)) ∧
    (∀ (api : GmailApi) (uid mid : String) e,
       api.messagesTrash { userId := uid, id := mid } = Except.error e →
       trashMessage api uid mid =
         ([(handleError e).1], Except.error (handleError e).2)) ∧
    (∀ (api : GmailApi) (uid mid : String) e,
       api.messagesUntrash { userId := uid, id := mid } = Except.error e →
       untrashMessage api uid mid =
         ([(handleError e).1], Except.error (handleError e).2)) ∧
    (∀ (api : GmailApi) (uid : String) (opts : Option ListThreadsOptions) e,
       api.threadsList (listThreadsRequest uid opts) = Except.error e →
       listThreads api uid opts =
         ([(handleError e).1], Except.error (handleError e).2)) ∧
    (∀ (api : GmailApi) (uid tid : String) (fmt : ThreadFormat) e,
       api.threadsGet { userId := uid, id := tid, format := fmt } = Except.error e →
       getThread api uid tid fmt =
         ([(handleError e).1], Except.error (handleError e).2)) := by
  refine ⟨?_, ?_, ?_, ?_, ?_, ?_, ?_, ?_, ?_, ?_, ?_, ?_, ?_⟩
  · intro m
    exact ⟨rfl, str_infix_of_decomp "Gmail API error: " m "" _
      (string_append_empty _), rfl⟩
  · intro s
    exact ⟨rfl, rfl⟩
  · intro api uid opts e h; simp [listMessages, h, catchWith]
  · intro api uid mid fmt e h; simp [getMessage, h, catchWith]
  · intro api uid query opts e h; simp [searchMessages, h, catchWith]
  · intro api uid opts e h; simp [sendMessage, h, catchWith]
  · intro api uid opts e h; simp [createDraft, h, catchWith]
  · intro api uid e h; simp [listLabels, h, catchWith]
  · intro api uid mid opts e h; simp [modifyMessageLabels, h, catchWith]
  · intro api uid mid e h; simp [trashMessage, h, catchWith]
  · intro api uid mid e h; simp [untrashMessage, h, catchWith]
  · intro api uid opts e h; simp [listThreads, h, catchWith]
  · intro api uid tid fmt e h; simp [getThread, h, catchWith]

/-- C4 witness: a failing list call and a failing labels call on the
all-failing SDK handle log the message and propagate the same error. -/
theorem facade_error_normalization_witness :
    listMessages apiAllFail "me" none =
      (["Gmail API error: boom"], Except.error (JsUnknown.errorVal "boom")) ∧
    listLabels apiAllFail "me" =
      (["Gmail API error: boom"], Except.error (JsUnknown.errorVal "boom")) := by
  have h := facade_error_normalization
  exact ⟨h.2.2.1 apiAllFail "me" none (JsUnknown.errorVal "boom") rfl,
    h.2.2.2.2.2.2.2.1 apiAllFail "me" (JsUnknown.errorVal "boom") rfl⟩

/-- C5: every list operation defaults a missing collection field to the
empty list, and returns a present collection unchanged. -/
theorem list_ops_default_empty :
    (∀ (api : GmailApi) (uid : String) (opts : Option ListMessagesOptions)
       (d : MessagesListData),
       api.messagesList (listMessagesRequest uid opts) = Except.ok d →
       (d.messages = none → (listMessages api uid opts).2 = Except.ok []) ∧
       (∀ l, d.messages = some l → (listMessages api uid opts).2 = Except.ok l)) ∧
    (∀ (api : GmailApi) (uid query : String) (opts : Option SearchMessagesOptions)
       (d : MessagesListData),
       api.messagesList (searchMessagesRequest uid query opts) = Except.ok d →
       (d.messages = none → (searchMessages api uid query opts).2 = Except.ok []) ∧
       (∀ l, d.messages = some l →
          (searchMessages api uid query opts).2 = Except.ok l)) ∧
    (∀ (api : GmailApi) (uid : String) (d : LabelsListData),
       api.labelsList { userId := uid } = Except.ok d →
       (d.labels = none → (listLabels api uid).2 = Except.ok []) ∧
       (∀ l, d.labels = some l → (listLabels api uid).2 = Except.ok l)) ∧
    (∀ (api : GmailApi) (uid : String) (opts : Option ListThreadsOptions)
       (d : ThreadsListData),
       api.threadsList (listThreadsRequest uid opts) = Except.ok d →
       (d.threads = none → (listThreads api uid opts).2 = Except.ok []) ∧
       (∀ l, d.threads = some l → (listThreads api uid opts).2 = Except.ok l)) := by
  refine ⟨?_, ?_, ?_, ?_⟩
  · intro api uid opts d h
    exact ⟨fun hn => by simp [listMessages, h, hn],
      fun l hl => by simp [listMessages, h, hl]⟩
  · intro api uid query opts d h
    exact ⟨fun hn => by simp [searchMessages, h, hn],
      fun l hl => by simp [searchMessages, h, hl]⟩
  · intro api uid d h
    exact ⟨fun hn => by simp [listLabels, h, hn],
      fun l hl => by simp [listLabels, h, hl]⟩
  · intro api uid opts d h
    exact ⟨fun hn => by simp [listThreads, h, hn],
      fun l hl => by simp [listThreads, h, hl]⟩

/-- C5 witness: concrete SDK handles whose list responses omit resp. carry
their collection fields. -/
theorem list_ops_default_empty_witness :
    (listMessages apiAllOkEmpty "me" none).2 = Except.ok [] ∧
    (listMessages apiAllOkFull "me" none).2 = Except.ok [msgFixture] ∧
    (listLabels apiAllOkEmpty "me").2 = Except.ok [] ∧
    (listLabels apiAllOkFull "me").2 = Except.ok [labelFixture] := by
  have h := list_ops_default_empty
  exact ⟨(h.1 apiAllOkEmpty "me" none {} rfl).1 rfl,
    (h.1 apiAllOkFull "me" none { messages := some [msgFixture] } rfl).2
      [msgFixture] rfl,
    (h.2.2.1 apiAllOkEmpty "me" {} rfl).1 rfl,
    (h.2.2.1 apiAllOkFull "me" { labels := some [labelFixture] } rfl).2
      [labelFixture] rfl⟩

/-- C10: `searchMessages` is observably equal to `listMessages` with the
`q` field of its options bound to the query: same forwarded request, same
empty-list defaulting, same error normalization, same log. -/
theorem searchMessages_refines_listMessages (api : GmailApi)
    (uid query : String) (opts : Option SearchMessagesOptions) :
    searchMessages api uid query opts =
      listMessages api uid (some (searchToListOptions query opts)) := rfl

/-- C9: the dispatcher never lets an error cross its boundary. A
credential-resolution failure yields an error-flagged text payload
containing the message, for every tool name; with credentials resolved, a
failing remote call on any dispatched tool yields an error-flagged text
payload carrying the normalized message; a succeeding remote call yields
the serialized result as a non-error text payload; an unregistered tool
name yields an error-flagged `Unknown tool` payload. In every case the
handler returns a `CallToolResult` value — it throws nothing. -/
theorem callToolHandler_boundary (d : ServerDeps) (args : ToolArgs) :
    (∀ name m, resolveTokens d.ext d.env d.fs args.tokens = Except.error m →
       callToolHandler d name args = errResult m) ∧
    (∀ t, resolveTokens d.ext d.env d.fs args.tokens = Except.ok t →
      (∀ e,
        ((∀ r, d.api.messagesList r = Except.error e) →
           callToolHandler d "gmailListMessages" args =
             errResult (jsErrMessage (handleError e).2) ∧
           callToolHandler d "gmailSearchMessages" args =
             errResult (jsErrMessage (handleError e).2)) ∧
        ((∀ r, d.api.messagesGet r = Except.error e) →
           callToolHandler d "gmailGetMessage" args =
             errResult (jsErrMessage (handleError e).2)) ∧
        ((∀ r, d.api.messagesSend r = Except.error e) →
           callToolHandler d "gmailSendMessage" args =
             errResult (jsErrMessage (handleError e).2)) ∧
        ((∀ r, d.api.draftsCreate r = Except.error e) →
           callToolHandler d "gmailCreateDraft" args =
             errResult (jsErrMessage (handleError e).2)) ∧
        ((∀ r, d.api.labelsList r = Except.error e) →
           callToolHandler d "gmailListLabels" args =
             errResult (jsErrMessage (handleError e).2)) ∧
        ((∀ r, d.api.messagesModify r = Except.error e) →
           callToolHandler d "gmailModifyMessageLabels" args =
             errResult (jsErrMessage (handleError e).2)) ∧
        ((∀ r, d.api.messagesTrash r = Except.error e) →
           callToolHandler d "gmailTrashMessage" args =
             errResult (jsErrMessage (handleError e).2)) ∧
        ((∀ r, d.api.messagesUntrash r = Except.error e) →
           callToolHandler d "gmailUntrashMessage" args =
             errResult (jsErrMessage (handleError e).2)) ∧
        ((∀ r, d.api.threadsList r = Except.error e) →
           callToolHandler d "gmailListThreads" args =
             errResult (jsErrMessage (handleError e).2)) ∧
        ((∀ r, d.api.threadsGet r = Except.error e) →
           callToolHandler d "gmailGetThread" args =
             errResult (jsErrMessage (handleError e).2))) ∧
      ((∀ resp, (∀ r, d.api.messagesList r = Except.ok resp) →
           callToolHandler d "gmailListMessages" args =
             okResult (d.stringifyMessages (resp.messages.getD [])) ∧
           callToolHandler d "gmailSearchMessages" args =
             okResult (d.stringifyMessages (resp.messages.getD []))) ∧
        (∀ msg, (∀ r, d.api.messagesGet r = Except.ok msg) →
           callToolHandler d "gmailGetMessage" args =
             okResult (d.stringifyMessage msg)) ∧
        (∀ msg, (∀ r, d.api.messagesSend r = Except.ok msg) →
           callToolHandler d "gmailSendMessage" args =
             okResult (d.stringifyMessage msg)) ∧
        (∀ dr, (∀ r, d.api.draftsCreate r = Except.ok dr) →
           callToolHandler d "gmailCreateDraft" args =
             okResult (d.stringifyDraft dr)) ∧
        (∀ resp, (∀ r, d.api.labelsList r = Except.ok resp) →
           callToolHandler d "gmailListLabels" args =
             okResult (d.stringifyLabels (resp.labels.getD []))) ∧
        (∀ msg, (∀ r, d.api.messagesModify r = Except.ok msg) →
           callToolHandler d "gmailModifyMessageLabels" args =
             okResult (d.stringifyMessage msg)) ∧
        (∀ msg, (∀ r, d.api.messagesTrash r = Except.ok msg) →
           callToolHandler d "gmailTrashMessage" args =
             okResult (d.stringifyMessage msg)) ∧
        (∀ msg, (∀ r, d.api.messagesUntrash r = Except.ok msg) →
           callToolHandler d "gmailUntrashMessage" args =
             okResult (d.stringifyMessage msg)) ∧
        (∀ resp, (∀ r, d.api.threadsList r = Except.ok resp) →
           callToolHandler d "gmailListThreads" args =
             okResult (d.stringifyThreads (resp.threads.getD []))) ∧
        (∀ th, (∀ r, d.api.threadsGet r = Except.ok th) →
           callToolHandler d "gmailGetThread" args =
             okResult (d.stringifyThread th))) ∧
      (∀ name, name ∉ toolNames →
         callToolHandler d name args =
           { content := [{ type := "text", text := "Unknown tool: " ++ name }],
             isError := true })) := by
  refine ⟨?_, ?_⟩
  · intro name m h
    simp [callToolHandler, h]
  · intro t hres
    refine ⟨?_, ?_, ?_⟩
    · intro e
      refine ⟨?_, ?_, ?_, ?_, ?_, ?_, ?_, ?_, ?_, ?_⟩
      · intro hapi
        constructor <;>
          simp [callToolHandler, hres, dispatchStep, listMessages,
            searchMessages, hapi, catchWith]
      · intro hapi
        simp [callToolHandler, hres, dispatchStep, getMessage, hapi, catchWith]
      · intro hapi
        simp [callToolHandler, hres, dispatchStep, sendMessage, hapi, catchWith]
      · intro hapi
        simp [callToolHandler, hres, dispatchStep, createDraft, hapi, catchWith]
      · intro hapi
        simp [callToolHandler, hres, dispatchStep, listLabels, hapi, catchWith]
      · intro hapi
        simp [callToolHandler, hres, dispatchStep, modifyMessageLabels, hapi,
          catchWith]
      · intro hapi
        simp [callToolHandler, hres, dispatchStep, trashMessage, hapi, catchWith]
      · intro hapi
        simp [callToolHandler, hres, dispatchStep, untrashMessage, hapi, catchWith]
      · intro hapi
        simp [callToolHandler, hres, dispatchStep, listThreads, hapi, catchWith]
      · intro hapi
        simp [callToolHandler, hres, dispatchStep, getThread, hapi, catchWith]
    · refine ⟨?_, ?_, ?_, ?_, ?_, ?_, ?_, ?_, ?_, ?_⟩
      · intro resp hapi
        constructor <;>
          simp [callToolHandler, hres, dispatchStep, listMessages,
            searchMessages, hapi]
      · intro msg hapi
        simp [callToolHandler, hres, dispatchStep, getMessage, hapi]
      · intro msg hapi
        simp [callToolHandler, hres, dispatchStep, sendMessage, hapi]
      · intro dr hapi
        simp [callToolHandler, hres, dispatchStep, createDraft, hapi]
      · intro resp hapi
        simp [callToolHandler, hres, dispatchStep, listLabels, hapi]
      · intro msg hapi
        simp [callToolHandler, hres, dispatchStep, modifyMessageLabels, hapi]
      · intro msg hapi
        simp [callToolHandler, hres, dispatchStep, trashMessage, hapi]
      · intro msg hapi
        simp [callToolHandler, hres, dispatchStep, untrashMessage, hapi]
      · intro resp hapi
        simp [callToolHandler, hres, dispatchStep, listThreads, hapi]
      · intro th hapi
        simp [callToolHandler, hres, dispatchStep, getThread, hapi]
    · intro name hname
      simp [toolNames, not_or] at hname
      obtain ⟨h1, h2, h3, h4, h5, h6, h7, h8, h9, h10, h11⟩ := hname
      simp [callToolHandler, hres, h1, h2, h3, h4, h5, h6, h7, h8, h9, h10, h11]

/-- C9 witness: a resolution failure, a remote failure, a remote success
and an unknown tool name, each at concrete dispatcher dependencies. -/
theorem callToolHandler_boundary_witness :
    callToolHandler depsFail "gmailListLabels" {} = errResult noTokensMsg ∧
    callToolHandler depsFail "gmailListLabels" { tokens := some tokensA } =
      errResult "boom" ∧
    callToolHandler depsOk "gmailListLabels" { tokens := some tokensA } =
      okResult "ser" ∧
    callToolHandler depsOk "notATool" { tokens := some tokensA } =
      { content := [{ type := "text", text := "Unknown tool: notATool" }],
        isError := true } := by
  have hn := callToolHandler_boundary depsFail ({} : ToolArgs)
  have hf := callToolHandler_boundary depsFail { tokens := some tokensA }
  have ho := callToolHandler_boundary depsOk { tokens := some tokensA }
  exact ⟨hn.1 "gmailListLabels" noTokensMsg rfl,
    ((hf.2 tokensA rfl).1 (JsUnknown.errorVal "boom")).2.2.2.2.1 (fun _ => rfl),
    ((ho.2 tokensA rfl).2.1).2.2.2.2.1 ({} : LabelsListData) (fun _ => rfl),
    (ho.2 tokensA rfl).2.2 "notATool" (by decide)⟩

end Gmail
